import Mathlib

/-!
Verification of the Satya repository against its specification.

Shallow embedding of the Python sources:
  - nautilus-server/seal_client.py        (SEAL blob decryption)
  - nautilus-server/ml_evaluator.py       (ML model evaluation and scoring)
  - flowTest/real_attestation_generator.py (TEE attestation sign and verify)

Bytes are modelled as lists of naturals, Python floats as exact rationals,
Python int() truncation as an explicit operation, and exceptions as
explicit Except values mirroring the try and except blocks of the source.
Network responses of the SEAL key servers are supplied as an oracle
argument (one optional key per configured server).
-/

namespace Satya

/-- Byte strings are modelled as lists of byte values. -/
abbrev Bytes := List Nat

/-- Python int() applied to a float truncates toward zero. -/
def pyInt (q : Rat) : Int := if 0 ≤ q then ⌊q⌋ else -⌊-q⌋

/-! ### seal_client.py -/

/-- Configuration record for one SEAL key server (seal_client.py). -/
structure KeyServerConfig where
  object_id : String
  url : String
  weight : Nat := 1
deriving DecidableEq

/-- SEAL client configuration (seal_client.py). -/
structure SealConfig where
  package_id : String
  threshold : Nat
  key_servers : List KeyServerConfig
  session_ttl : Nat := 1800
deriving DecidableEq

/-- The configuration built by SealClient.load_config with no environment
overrides: threshold 2 and two key servers. -/
def load_config : SealConfig :=
  { package_id := "0x98f8a6ce208764219b23dc51db45bf11516ec0998810e98f3a94548d788ff679"
    threshold := 2
    key_servers :=
      [ { object_id := "0x73d05d62c18d9374e3ea529e8e0ed6161da1a141a94d3f76ae3fe4e99356db75"
          url := "https://seal-key-server-testnet-1.mystenlabs.com" }
      , { object_id := "0xf5d14a81a982144ae441cd7d64b09027f116a468bd36e7eca494f750591623c8"
          url := "https://seal-key-server-testnet-2.mystenlabs.com" } ]
    session_ttl := 1800 }

/-- The byte-frequency dictionary built in calculate_entropy: one entry per
distinct byte (in order of first occurrence, as a Python dict), with its
count. -/
def frequencies (data : Bytes) : List (Nat × Nat) :=
  data.dedup.map (fun b => (b, data.count b))

/-- Python floats have no bit_length method, so the expression
probability.bit_length() in calculate_entropy raises AttributeError for
every probability (count divided by length is always a float there). -/
def float_bit_length (_probability : Rat) : Except String Nat :=
  .error "AttributeError: float object has no attribute bit_length"

/-- The accumulation loop of calculate_entropy over the frequency table. -/
def entropyLoop (length : Nat) (freqs : List (Nat × Nat)) (acc : Rat) :
    Except String Rat :=
  match freqs with
  | [] => .ok acc
  | (_, count) :: rest =>
    let probability : Rat := (count : Rat) / (length : Rat)
    match float_bit_length probability with
    | .error e => .error e
    | .ok bl => entropyLoop length rest (acc - probability * ((bl : Rat) - 1))

/-- SealClient.calculate_entropy: returns 0 on empty input, otherwise runs
the frequency loop and normalises the result to the range 0 to 1.  The loop
raises AttributeError on its first iteration (see float_bit_length). -/
def calculate_entropy (data : Bytes) : Except String Rat :=
  if data.isEmpty then .ok 0
  else
    match entropyLoop data.length (frequencies data) 0 with
    | .error e => .error e
    | .ok entropy => .ok (min (entropy / 8) 1)

/-- Bytes 53 45 41 4C, the ASCII prefix SEAL. -/
def sealMagic : Bytes := [83, 69, 65, 76]

/-- Bytes 00 53 45 41 4C, the prefix NUL SEAL. -/
def sealMagic0 : Bytes := [0, 83, 69, 65, 76]

/-- Bytes of the lowercase pattern seal. -/
def sealLowerPat : Bytes := [115, 101, 97, 108]

/-- Bytes of the pattern enc. -/
def encPat : Bytes := [101, 110, 99]

/-- Bytes of the pattern key. -/
def keyPat : Bytes := [107, 101, 121]

/-- Python substring containment (pattern in data): true when pat occurs as a
contiguous run of data. -/
def bytesContains (pat : Bytes) : Bytes → Bool
  | [] => pat.isEmpty
  | b :: rest => pat.isPrefixOf (b :: rest) || bytesContains pat rest

/-- SealClient.is_seal_encrypted: inputs shorter than 32 bytes are never
classified as encrypted; otherwise the first 16 bytes are checked for the
SEAL magic prefixes, and failing that the entropy heuristic runs inside a
try block whose except clause falls through to returning false. -/
def is_seal_encrypted (data : Bytes) : Bool :=
  if data.length < 32 then false
  else
    let first_bytes := data.take 16
    if sealMagic.isPrefixOf first_bytes || sealMagic0.isPrefixOf first_bytes then
      true
    else
      match calculate_entropy first_bytes with
      | .error _ => false
      | .ok entropy =>
        if (17 : Rat) / 20 < entropy then
          if bytesContains sealLowerPat (data.take 64) || bytesContains encPat (data.take 64)
              || bytesContains keyPat (data.take 64) then
            true
          else false
        else false

/-- Mock SEAL metadata assembled by extract_seal_metadata.  The sha256 digest
of the 32-byte prefix is modelled by that prefix itself (no claim depends on
the digest value). -/
structure SealMetadata where
  session_id : Bytes
  encryption_algorithm : String
  key_shares : Nat
  timestamp : String
deriving DecidableEq

/-- The metadata value extract_seal_metadata builds for a blob. -/
def mock_metadata (cfg : SealConfig) (encrypted_data : Bytes) : SealMetadata :=
  { session_id := encrypted_data.take 32
    encryption_algorithm := "AES-256-GCM"
    key_shares := cfg.threshold
    timestamp := "2025-11-24" }

/-- SealClient.extract_seal_metadata: always succeeds with mock metadata
(its try body cannot fail). -/
def extract_seal_metadata (cfg : SealConfig) (encrypted_data : Bytes) :
    Option SealMetadata :=
  some (mock_metadata cfg encrypted_data)

/-- One collected session key entry (server index, key data, weight). -/
structure SessionKey where
  server_id : Nat
  key_data : Nat
  weight : Nat
deriving DecidableEq

/-- Helper for get_session_keys: walk the configured servers paired with
their oracle responses, skipping servers that failed to answer. -/
def collectKeys : List (KeyServerConfig × Option Nat) → Nat → List SessionKey
  | [], _ => []
  | (_, none) :: rest, i => collectKeys rest (i + 1)
  | (srv, some k) :: rest, i => ⟨i, k, srv.weight⟩ :: collectKeys rest (i + 1)

/-- SealClient.get_session_keys: each configured key server either returns a
key (some k: HTTP 200) or fails (none: non-200 status or exception); failed
servers are skipped and the collected keys are returned in order. -/
def get_session_keys (cfg : SealConfig) (responses : List (Option Nat)) :
    List SessionKey :=
  collectKeys (cfg.key_servers.zip responses) 0

/-- SealClient.perform_decryption: the mock decryption strips a 64-byte
header when the blob is longer than 64 bytes and otherwise returns the blob
unchanged; its try body cannot fail. -/
def perform_decryption (encrypted_data : Bytes) (_session_keys : List SessionKey)
    (_metadata : SealMetadata) : Bytes :=
  if 64 < encrypted_data.length then encrypted_data.drop 64 else encrypted_data

/-- The distinct exceptions raised inside decrypt_with_key_servers. -/
inductive SealError where
  | metadataMissing : SealError
  | insufficientKeys (got need : Nat) : SealError
  | decryptFailed : SealError
deriving DecidableEq

/-- The try body of SealClient.decrypt_with_key_servers: extract metadata,
collect session keys, raise the insufficient-keys exception when fewer than
threshold were collected, else decrypt. -/
def decrypt_with_key_servers_try (cfg : SealConfig) (responses : List (Option Nat))
    (encrypted_data : Bytes) : Except SealError Bytes :=
  match extract_seal_metadata cfg encrypted_data with
  | none => .error .metadataMissing
  | some md =>
    let session_keys := get_session_keys cfg responses
    if session_keys.length < cfg.threshold then
      .error (.insufficientKeys session_keys.length cfg.threshold)
    else
      .ok (perform_decryption encrypted_data session_keys md)

/-- SealClient.decrypt_with_key_servers: the except clause turns every
raised exception into None. -/
def decrypt_with_key_servers (cfg : SealConfig) (responses : List (Option Nat))
    (encrypted_data : Bytes) : Option Bytes :=
  (decrypt_with_key_servers_try cfg responses encrypted_data).toOption

/-- SealClient.decrypt_blob: returns the input unchanged when it is not
classified as SEAL encrypted; otherwise attempts key-server decryption, and
on a None or empty result raises, which the surrounding except clause
catches by returning the original encrypted bytes. -/
def decrypt_blob (cfg : SealConfig) (responses : List (Option Nat))
    (encrypted_data : Bytes) : Bytes :=
  if !is_seal_encrypted encrypted_data then encrypted_data
  else
    match decrypt_with_key_servers cfg responses encrypted_data with
    | some d => if d.length != 0 then d else encrypted_data
    | none => encrypted_data

/-! ### ml_evaluator.py

The model under evaluation is an oracle: its predictions (and, when it has
predict_proba, its positive-class probabilities) are passed in as lists
aligned with the label column y.  Labels and predictions are rationals. -/

/-- The metrics dictionary assembled by evaluate_model_performance.  A field
is none exactly when the corresponding key is absent from the Python dict.
RMSE is the square root of the mean squared error; since the square root of
a rational is irrational, the field carries the mean squared error (the
square of the RMSE), which determines it. -/
structure Metrics where
  accuracy : Option Rat := none
  precision_score : Option Rat := none
  recall_score : Option Rat := none
  f1_score : Option Rat := none
  auc : Option Rat := none
  mse : Option Rat := none
  mae : Option Rat := none
  r2 : Option Rat := none
deriving DecidableEq

/-- Per-class true positives: positions where both the label and the
prediction equal c. -/
def countTP (y ypred : List Rat) (c : Rat) : Nat :=
  ((y.zip ypred).filter (fun p => p.1 == c && p.2 == c)).length

/-- Per-class precision with the zero_division=0 convention of
sklearn precision_score. -/
def precisionOf (y ypred : List Rat) (c : Rat) : Rat :=
  let pp := ypred.count c
  if pp = 0 then 0 else (countTP y ypred c : Rat) / (pp : Rat)

/-- Per-class recall with the zero_division=0 convention. -/
def recallOf (y ypred : List Rat) (c : Rat) : Rat :=
  let ac := y.count c
  if ac = 0 then 0 else (countTP y ypred c : Rat) / (ac : Rat)

/-- Per-class F1, zero when precision plus recall vanishes. -/
def f1Of (y ypred : List Rat) (c : Rat) : Rat :=
  let p := precisionOf y ypred c
  let r := recallOf y ypred c
  if p + r = 0 then 0 else 2 * p * r / (p + r)

/-- Support-weighted average over the distinct labels of y, as computed by
the sklearn metrics with average equal to weighted (labels absent from y
have zero support and contribute nothing). -/
def weightedAvg (y ypred : List Rat) (m : List Rat → List Rat → Rat → Rat) : Rat :=
  (y.dedup.map (fun c => ((y.count c : Rat) / (y.length : Rat)) * m y ypred c)).sum

/-- Fraction of positions where prediction equals label
(sklearn accuracy_score). -/
def accuracyScore (y ypred : List Rat) : Rat :=
  (((y.zip ypred).filter (fun p => p.1 == p.2)).length : Rat) / (y.length : Rat)

/-- Largest element of a list of rationals, 0 for the empty list. -/
def listMaxD : List Rat → Rat
  | [] => 0
  | h :: t => t.foldl max h

/-- sklearn roc_auc_score in its rank-statistic form: the probability that a
uniformly chosen positive example receives a higher score than a uniformly
chosen negative one, counting ties one half; the positive class is the
larger of the two labels. -/
def rocAucScore (y score : List Rat) : Rat :=
  let pos := listMaxD y.dedup
  let ps := ((y.zip score).filter (fun p => p.1 == pos)).map (fun p => p.2)
  let ns := ((y.zip score).filter (fun p => !(p.1 == pos))).map (fun p => p.2)
  if ps.length = 0 || ns.length = 0 then 0
  else
    (ps.map (fun a =>
      (ns.map (fun b => if b < a then (1 : Rat) else if b == a then 1 / 2 else 0)).sum)).sum
      / ((ps.length : Rat) * (ns.length : Rat))

/-- Residual sum of squares of the predictions against the labels. -/
def ssRes (y ypred : List Rat) : Rat :=
  ((y.zip ypred).map (fun p => (p.1 - p.2) ^ 2)).sum

/-- Total sum of squares of the labels about their mean. -/
def ssTot (y : List Rat) : Rat :=
  let meanY := y.sum / (y.length : Rat)
  (y.map (fun v => (v - meanY) ^ 2)).sum

/-- The pseudo R squared of evaluate_model_performance: 1 minus the ratio of
residual to total sum of squares, and 0 when the total sum of squares
vanishes. -/
def pseudoR2 (y ypred : List Rat) : Rat :=
  if ssTot y ≠ 0 then 1 - ssRes y ypred / ssTot y else 0

/-- MLEvaluator.evaluate_model_performance, prediction step succeeding.
The classification branch runs when the model has predict_proba or the label
column has at most 10 distinct values; it computes accuracy and the
support-weighted precision, recall and F1, plus AUC when there are exactly
two classes (from probabilities when available, else from the predictions).
The regression branch computes MSE (carrying the RMSE), MAE, the pseudo R
squared, and stores its zero-clipped value as both accuracy and f1_score. -/
def evaluate_model_performance (hasProba : Bool) (y ypred probs : List Rat) :
    Metrics :=
  if hasProba || y.dedup.length ≤ 10 then
    { accuracy := some (accuracyScore y ypred)
      precision_score := some (weightedAvg y ypred precisionOf)
      recall_score := some (weightedAvg y ypred recallOf)
      f1_score := some (weightedAvg y ypred f1Of)
      auc :=
        if y.dedup.length = 2 then
          some (if hasProba then rocAucScore y probs else rocAucScore y ypred)
        else none }
  else
    { mse := some (ssRes y ypred / (y.length : Rat))
      mae := some ((((y.zip ypred).map (fun p => |p.1 - p.2|)).sum) / (y.length : Rat))
      r2 := some (pseudoR2 y ypred)
      accuracy := some (max 0 (pseudoR2 y ypred))
      f1_score := some (max 0 (pseudoR2 y ypred)) }

/-- Result record of MLEvaluator.assess_bias. -/
structure BiasResult where
  fairness_score : Int
  bias_detected : Bool
  bias_type : Option String
  demographic_parity : Option Int
  equalized_odds : Option Int
deriving DecidableEq

/-- The fixed list of protected attribute column names. -/
def protected_attrs : List String :=
  ["protected_attribute", "gender", "race", "age_group"]

/-- The neutral default returned when no protected column is present. -/
def defaultBias : BiasResult :=
  { fairness_score := 85
    bias_detected := false
    bias_type := none
    demographic_parity := none
    equalized_odds := none }

/-- First protected attribute name occurring among the dataset columns. -/
def findProtectedCol (cols : List String) : Option String :=
  protected_attrs.find? (fun a => cols.contains a)

/-- Mean of the values selected by a boolean mask (np.mean over a masked
array); call sites guard against an empty selection. -/
def meanWhere (vals : List Rat) (mask : List Bool) : Rat :=
  let sel := ((vals.zip mask).filter (fun p => p.2)).map (fun p => p.1)
  sel.sum / (sel.length : Rat)

/-- Input of assess_bias: the dataset column names, the protected column
values, the label column y, and the model predictions (oracle). -/
structure BiasInput where
  columns : List String
  protectedVals : List Rat
  y : List Rat
  ypred : List Rat
deriving DecidableEq

/-- Demographic parity gap of assess_bias: absolute difference between the
mean prediction of group 1 and of group 0 of the protected column, a group
contributing rate 0 when empty. -/
def demographic_parity_diff (inp : BiasInput) : Rat :=
  let mask0 := inp.protectedVals.map (fun v => v == 0)
  let mask1 := inp.protectedVals.map (fun v => v == 1)
  let rate0 := if mask0.any id then meanWhere inp.ypred mask0 else 0
  let rate1 := if mask1.any id then meanWhere inp.ypred mask1 else 0
  |rate1 - rate0|

/-- Equalized odds gap of assess_bias: for binary labels, absolute
difference of the mean prediction over the positives of each group, and 0
otherwise. -/
def equalized_odds_diff (inp : BiasInput) : Rat :=
  if inp.y.dedup.length = 2 then
    let m0 := (inp.protectedVals.zip inp.y).map (fun p => p.1 == 0 && p.2 == 1)
    let m1 := (inp.protectedVals.zip inp.y).map (fun p => p.1 == 1 && p.2 == 1)
    if m0.any id && m1.any id then
      |meanWhere inp.ypred m1 - meanWhere inp.ypred m0|
    else 0
  else 0

/-- MLEvaluator.assess_bias: returns the neutral default when no protected
column is present; otherwise flags bias when the demographic parity gap
exceeds the fixed threshold of one tenth and derives the fairness score from
the gap by Python int() truncation. -/
def assess_bias (inp : BiasInput) : BiasResult :=
  match findProtectedCol inp.columns with
  | none => defaultBias
  | some _ =>
    { fairness_score := max 0 (pyInt ((1 - demographic_parity_diff inp) * 100))
      bias_detected := decide ((1 : Rat) / 10 < demographic_parity_diff inp)
      bias_type :=
        if (1 : Rat) / 10 < demographic_parity_diff inp then some "demographic" else none
      demographic_parity := some (pyInt ((1 - demographic_parity_diff inp) * 10000))
      equalized_odds :=
        if 0 < equalized_odds_diff inp then
          some (pyInt ((1 - equalized_odds_diff inp) * 10000))
        else none }

/-- MLEvaluator.calculate_overall_quality_score: combines the accuracy
equivalent (the f1_score entry, falling back to accuracy then 0), the
fairness score and the data integrity score with fixed weights 0.4, 0.3,
0.3 and clamps the Python int() truncation of the result to 0..100. -/
def calculate_overall_quality_score (metrics : Metrics) (bias_metrics : BiasResult)
    (data_integrity : Int) : Int :=
  let accuracy_weight : Rat := 4 / 10
  let bias_weight : Rat := 3 / 10
  let integrity_weight : Rat := 3 / 10
  let accuracy := metrics.f1_score.getD (metrics.accuracy.getD 0)
  let quality_score : Rat :=
    accuracy * accuracy_weight * 100 + (bias_metrics.fairness_score : Rat) * bias_weight
      + (data_integrity : Rat) * integrity_weight
  max 0 (min 100 (pyInt quality_score))

/-! ### real_attestation_generator.py

Ed25519 is modelled as an ideal signature scheme: a signature value is the
pair of the signing key pair (identified by a natural number, standing for
the key material from which the public key is derived) and the exact signed
message, and verification under a public key succeeds exactly on the
signature produced for that message under the matching key.  The canonical
message is the json.dumps of the six signing fields with sorted keys; since
that encoding is injective on the field values, it is modelled by the
record of the six fields itself. -/

/-- The canonical signing payload assembled by sign_attestation and
verify_attestation: the four PCR values, the timestamp and the enclave id. -/
structure SigningData where
  pcr0 : String
  pcr1 : String
  pcr2 : String
  pcr8 : String
  timestamp : String
  enclave_id : String
deriving DecidableEq

/-- An Ed25519 signature value in the ideal model. -/
structure Ed25519Signature where
  signer : Nat
  message : SigningData
deriving DecidableEq

/-- Signing with the private half of key pair k. -/
def ed25519_sign (k : Nat) (m : SigningData) : Ed25519Signature := ⟨k, m⟩

/-- Verification with the public half of key pair k: succeeds exactly on the
signature of this very message under this very key pair. -/
def ed25519_verify (k : Nat) (sig : Ed25519Signature) (m : SigningData) : Bool :=
  decide (sig = ed25519_sign k m)

/-- The byte string decoded from the hex signature field: either the wire
form of an Ed25519 signature, or bytes that are no valid 64-byte signature
encoding (wrong length, corrupted, or the empty default), on which the
cryptography library raises InvalidSignature. -/
inductive SigBytes where
  | wire (s : Ed25519Signature)
  | junk (raw : Bytes)
deriving DecidableEq

/-- The hex string held in the signature field: bytes.fromhex raises
ValueError on a string that is not valid hexadecimal and otherwise yields
the decoded bytes. -/
inductive SigHex where
  | nonHex (raw : String)
  | hexOf (b : SigBytes)
deriving DecidableEq

/-- An attestation dictionary: a field is none when the key is absent. -/
structure AttestationData where
  pcr0 : Option String
  pcr1 : Option String
  pcr2 : Option String
  pcr8 : Option String
  timestamp : Option String
  enclave_id : Option String
  signature : Option SigHex
deriving DecidableEq

/-- The Python KeyError raised by a bracket access on a missing key. -/
def keyLookup (o : Option String) (k : String) : Except String String :=
  match o with
  | some v => .ok v
  | none => .error ("KeyError: " ++ k)

/-- The signing payload both sign_attestation and verify_attestation rebuild
from an attestation dictionary: the five PCR and timestamp fields are
accessed with brackets (raising KeyError when absent) and enclave_id with
get and the empty default. -/
def signing_data_of (a : AttestationData) : Except String SigningData :=
  match keyLookup a.pcr0 "pcr0" with
  | .error e => .error e
  | .ok p0 =>
    match keyLookup a.pcr1 "pcr1" with
    | .error e => .error e
    | .ok p1 =>
      match keyLookup a.pcr2 "pcr2" with
      | .error e => .error e
      | .ok p2 =>
        match keyLookup a.pcr8 "pcr8" with
        | .error e => .error e
        | .ok p8 =>
          match keyLookup a.timestamp "timestamp" with
          | .error e => .error e
          | .ok ts => .ok ⟨p0, p1, p2, p8, ts, a.enclave_id.getD ""⟩

/-- RealAttestationGenerator.sign_attestation: canonicalise the payload and
sign it, returning the hex encoding of the signature. -/
def sign_attestation (k : Nat) (attestation_data : AttestationData) :
    Except String SigHex :=
  match signing_data_of attestation_data with
  | .error e => .error e
  | .ok sd => .ok (.hexOf (.wire (ed25519_sign k sd)))

/-- The try body of RealAttestationGenerator.verify_attestation: decode the
hex signature field (defaulting to the empty string, whose decode yields
empty junk bytes), rebuild the signing payload, and run Ed25519
verification, which raises InvalidSignature unless the bytes are the wire
form of the signature of exactly this payload under this key. -/
def verify_attestation_try (k : Nat) (a : AttestationData) : Except String Bool :=
  match a.signature.getD (.hexOf (.junk [])) with
  | .nonHex _ => .error "ValueError: non-hexadecimal number found in fromhex"
  | .hexOf b =>
    match signing_data_of a with
    | .error e => .error e
    | .ok sd =>
      match b with
      | .junk _ => .error "InvalidSignature"
      | .wire s => if ed25519_verify k s sd then .ok true else .error "InvalidSignature"

/-- RealAttestationGenerator.verify_attestation: the except clause catches
every exception of the try body and returns false. -/
def verify_attestation (k : Nat) (a : AttestationData) : Bool :=
  match verify_attestation_try k a with
  | .ok b => b
  | .error _ => false

/-- The attestation dictionary holding a full payload and no signature. -/
def attestationOf (P : SigningData) : AttestationData :=
  { pcr0 := some P.pcr0
    pcr1 := some P.pcr1
    pcr2 := some P.pcr2
    pcr8 := some P.pcr8
    timestamp := some P.timestamp
    enclave_id := some P.enclave_id
    signature := none }

/-- generate_real_attestation: assemble the payload, sign it, and store the
signature in the dictionary. -/
def signed_attestation (k : Nat) (P : SigningData) : AttestationData :=
  { attestationOf P with
    signature := (sign_attestation k (attestationOf P)).toOption }

/-- The six payload fields of an attestation. -/
inductive PayloadField where
  | pcr0 | pcr1 | pcr2 | pcr8 | timestamp | enclave_id
deriving DecidableEq

/-- Read one payload field of an attestation dictionary. -/
def getPayloadField : PayloadField → AttestationData → Option String
  | .pcr0, a => a.pcr0
  | .pcr1, a => a.pcr1
  | .pcr2, a => a.pcr2
  | .pcr8, a => a.pcr8
  | .timestamp, a => a.timestamp
  | .enclave_id, a => a.enclave_id

/-- Overwrite one payload field of an attestation dictionary. -/
def setPayloadField : PayloadField → String → AttestationData → AttestationData
  | .pcr0, v, a => { a with pcr0 := some v }
  | .pcr1, v, a => { a with pcr1 := some v }
  | .pcr2, v, a => { a with pcr2 := some v }
  | .pcr8, v, a => { a with pcr8 := some v }
  | .timestamp, v, a => { a with timestamp := some v }
  | .enclave_id, v, a => { a with enclave_id := some v }

/-! ### Concrete inputs used by counterexamples and witnesses -/

/-- A 32-byte blob starting with the SEAL magic: classified as encrypted. -/
def seal32 : Bytes := sealMagic ++ List.replicate 28 0

/-- The bytes of a small plainly unencrypted CSV dataset. -/
def csvSample : Bytes :=
  "age,income,label\n25,50000,1\n30,60000,0\n".data.map Char.toNat

/-- A dataset slice with a protected gender column over 32 rows: group 0 is
predicted positive at rate 0 and group 1 at rate 1/16. -/
def c7bias : BiasInput :=
  { columns := ["gender", "income", "label"]
    protectedVals := List.replicate 16 0 ++ List.replicate 16 1
    y := List.replicate 32 0
    ypred := List.replicate 16 0 ++ (1 :: List.replicate 15 0) }

/-- A label column with 11 distinct values. -/
def c9y : List Rat := [0, 1, 2, 3, 4, 5, 6, 7, 8, 9, 10]

/-- The metrics dictionary of the specified scenario: weighted F1 0.85. -/
def c1metrics : Metrics := { f1_score := some (17 / 20) }

/-- A dataset slice whose columns contain no protected attribute. -/
def c8input : BiasInput :=
  { columns := ["feature_0", "income", "label"]
    protectedVals := []
    y := []
    ypred := [] }

/-- A concrete attestation payload. -/
def c3payload : SigningData :=
  { pcr0 := "a0", pcr1 := "a1", pcr2 := "a2", pcr8 := "a8"
    timestamp := "2025-11-24T00:00:00Z", enclave_id := "enc_0" }

end Satya

/-! ### Helper lemmas -/

namespace Satya

/-- The error message of the AttributeError raised inside calculate_entropy. -/
def attrErr : String := "AttributeError: float object has no attribute bit_length"

theorem frequencies_ne_nil {data : Bytes} (h : data ≠ []) : frequencies data ≠ [] := by
  unfold frequencies
  simp only [ne_eq, List.map_eq_nil_iff, List.dedup_eq_nil]
  exact h

theorem entropyLoop_error (n : Nat) (b c : Nat) (rest : List (Nat × Nat)) (acc : Rat) :
    entropyLoop n ((b, c) :: rest) acc = .error attrErr := rfl

theorem calculate_entropy_raises {data : Bytes} (h : data ≠ []) :
    calculate_entropy data = .error attrErr := by
  unfold calculate_entropy
  rw [if_neg (by simpa using h)]
  rcases hf : frequencies data with _ | ⟨⟨b, c⟩, rest⟩
  · exact absurd hf (frequencies_ne_nil h)
  · rw [entropyLoop_error]

theorem is_seal_encrypted_iff (data : Bytes) :
    is_seal_encrypted data = true ↔
      32 ≤ data.length ∧
        (sealMagic.isPrefixOf (data.take 16) = true ∨
          sealMagic0.isPrefixOf (data.take 16) = true) := by
  unfold is_seal_encrypted
  by_cases h32 : data.length < 32
  · rw [if_pos h32]
    simp only [Bool.false_eq_true, false_iff, not_and]
    intro hle
    omega
  · rw [if_neg h32]
    have h32a : 32 ≤ data.length := by omega
    have hne : data.take 16 ≠ [] := by
      rcases data with _ | ⟨b, t⟩
      · simp at h32a
      · simp
    by_cases hpre : (sealMagic.isPrefixOf (data.take 16)
        || sealMagic0.isPrefixOf (data.take 16)) = true
    · simp only [hpre, if_true]
      constructor
      · intro _
        exact ⟨h32a, by simpa using hpre⟩
      · intro _
        trivial
    · simp only [hpre, if_false, Bool.false_eq_true, ite_false]
      rw [calculate_entropy_raises hne]
      simp only [Bool.false_eq_true, false_iff, not_and]
      intro _
      intro hp
      rcases hp with hp | hp <;> simp [hp] at hpre

theorem dwks_try_ok {cfg : SealConfig} {responses : List (Option Nat)} {data : Bytes}
    (hle : cfg.threshold ≤ (get_session_keys cfg responses).length) :
    decrypt_with_key_servers_try cfg responses data =
      .ok (perform_decryption data (get_session_keys cfg responses)
        (mock_metadata cfg data)) := by
  simp only [decrypt_with_key_servers_try, extract_seal_metadata]
  rw [if_neg (by omega)]

theorem dwks_try_err {cfg : SealConfig} {responses : List (Option Nat)} {data : Bytes}
    (hlt : (get_session_keys cfg responses).length < cfg.threshold) :
    decrypt_with_key_servers_try cfg responses data =
      .error (.insufficientKeys (get_session_keys cfg responses).length cfg.threshold) := by
  simp only [decrypt_with_key_servers_try, extract_seal_metadata]
  rw [if_pos hlt]

end Satya

/-! ### Claims about seal_client.py -/

namespace Satya

/-- C10: the entropy branch of is_seal_encrypted is unreachable.  For every
non-empty byte string, calculate_entropy raises AttributeError (floats have
no bit_length), which is_seal_encrypted swallows, so is_seal_encrypted
returns true exactly when the input is at least 32 bytes long and its
16-byte prefix starts with the bytes SEAL or NUL SEAL, and in particular
returns false for every input shorter than 32 bytes. -/
theorem entropy_branch_unreachable :
    (∀ data : Bytes, data ≠ [] → calculate_entropy data = .error attrErr) ∧
    (∀ data : Bytes,
      is_seal_encrypted data = true ↔
        32 ≤ data.length ∧
          (sealMagic.isPrefixOf (data.take 16) = true ∨
            sealMagic0.isPrefixOf (data.take 16) = true)) ∧
    (∀ data : Bytes, data.length < 32 → is_seal_encrypted data = false) := by
  refine ⟨fun data h => calculate_entropy_raises h, fun data => is_seal_encrypted_iff data,
    fun data h => ?_⟩
  unfold is_seal_encrypted
  rw [if_pos h]

/-- Witness for C10 at concrete inputs: the entropy helper raises on a
one-byte input, a SEAL-prefixed 32-byte blob is classified as encrypted,
and a 3-byte input is not. -/
theorem entropy_branch_unreachable_witness :
    calculate_entropy [65] = .error attrErr ∧
    is_seal_encrypted seal32 = true ∧
    is_seal_encrypted [1, 2, 3] = false :=
  ⟨entropy_branch_unreachable.1 [65] (by decide),
    (entropy_branch_unreachable.2.1 seal32).mpr (by constructor <;> decide),
    entropy_branch_unreachable.2.2 [1, 2, 3] (by decide)⟩

/-- Counterexample to C2: a 32-byte blob with the SEAL magic is classified
as encrypted, the quorum collection fails (no key server responds, 0 of 2
required keys), and decrypt_blob nevertheless returns the original
ciphertext bytes unchanged instead of surfacing the failure. -/
theorem decrypt_failure_counterexample :
    is_seal_encrypted seal32 = true ∧
    decrypt_with_key_servers load_config [none, none] seal32 = none ∧
    decrypt_blob load_config [none, none] seal32 = seal32 :=
  ⟨rfl, rfl, rfl⟩

/-- C2 as amended: when a blob is classified as encrypted and key-server
decryption fails, decrypt_blob catches the failure and falls back to
returning the original ciphertext bytes unchanged; the error is only
logged, never surfaced to the caller. -/
theorem decrypt_failure_returns_ciphertext :
    ∀ (cfg : SealConfig) (responses : List (Option Nat)) (data : Bytes),
      is_seal_encrypted data = true →
      decrypt_with_key_servers cfg responses data = none →
      decrypt_blob cfg responses data = data := by
  intro cfg responses data h hfail
  unfold decrypt_blob
  rw [h, hfail]
  simp

/-- Witness for the amended C2 at a concrete input. -/
theorem decrypt_failure_returns_ciphertext_witness :
    decrypt_blob load_config [none, none] seal32 = seal32 :=
  decrypt_failure_returns_ciphertext load_config [none, none] seal32 rfl rfl

/-- Counterexample to C6: the short-circuit on unencrypted-looking input is
not the only no-op path.  A SEAL-prefixed 32-byte blob is classified as
encrypted and both key servers respond, yet decrypt_blob returns the bytes
unchanged, because the mock decryption leaves blobs of at most 64 bytes
untouched. -/
theorem decrypt_noop_counterexample :
    is_seal_encrypted seal32 = true ∧
    decrypt_with_key_servers load_config [some 1, some 2] seal32 = some seal32 ∧
    decrypt_blob load_config [some 1, some 2] seal32 = seal32 :=
  ⟨rfl, rfl, rfl⟩

/-- C6 as amended: when the heuristic classifies the bytes as not
encrypted, decrypt_blob short-circuits and returns the input unchanged; but
this is not the only no-op path, since a blob classified as encrypted whose
length is at most 64 bytes is also returned unchanged (as is any blob on
which decryption fails, see the amended C2). -/
theorem decrypt_passthrough :
    (∀ (cfg : SealConfig) (responses : List (Option Nat)) (data : Bytes),
      is_seal_encrypted data = false → decrypt_blob cfg responses data = data) ∧
    (∀ (cfg : SealConfig) (responses : List (Option Nat)) (data : Bytes),
      is_seal_encrypted data = true → data.length ≤ 64 →
        decrypt_blob cfg responses data = data) := by
  constructor
  · intro cfg responses data h
    unfold decrypt_blob
    rw [h]
    rfl
  · intro cfg responses data h h64
    have h32 : 32 ≤ data.length := ((is_seal_encrypted_iff data).mp h).1
    unfold decrypt_blob
    rw [h]
    unfold decrypt_with_key_servers
    by_cases hq : (get_session_keys cfg responses).length < cfg.threshold
    · rw [dwks_try_err hq]
      simp [Except.toOption]
    · rw [dwks_try_ok (by omega)]
      have hperf : perform_decryption data (get_session_keys cfg responses)
          (mock_metadata cfg data) = data := by
        unfold perform_decryption
        rw [if_neg (by omega)]
      rw [hperf]
      simp [Except.toOption]

/-- Witness for the amended C6: a plainly unencrypted CSV dataset passes
through unchanged, and a 32-byte SEAL-prefixed blob with a full quorum also
passes through unchanged. -/
theorem decrypt_passthrough_witness :
    decrypt_blob load_config [] csvSample = csvSample ∧
    decrypt_blob load_config [some 1, some 2] seal32 = seal32 :=
  ⟨decrypt_passthrough.1 load_config [] csvSample rfl,
    decrypt_passthrough.2 load_config [some 1, some 2] seal32 rfl (by decide)⟩

/-- C4: key-share collection proceeds to decryption exactly when the number
of collected key-holder responses reaches the configured threshold;
otherwise the body of decrypt_with_key_servers raises the explicit
insufficient-keys error carrying the collected and required counts, an
error distinct from the decryption-mechanics and metadata failures.  With
the default threshold 2, one collected key yields that error. -/
theorem quorum_threshold_gate :
    ∀ (cfg : SealConfig) (responses : List (Option Nat)) (data : Bytes),
      (cfg.threshold ≤ (get_session_keys cfg responses).length →
        decrypt_with_key_servers_try cfg responses data =
          .ok (perform_decryption data (get_session_keys cfg responses)
            (mock_metadata cfg data))) ∧
      ((get_session_keys cfg responses).length < cfg.threshold →
        decrypt_with_key_servers_try cfg responses data =
          .error (.insufficientKeys (get_session_keys cfg responses).length
            cfg.threshold)) ∧
      (∀ got need : Nat,
        SealError.insufficientKeys got need ≠ SealError.decryptFailed ∧
        SealError.insufficientKeys got need ≠ SealError.metadataMissing) := by
  intro cfg responses data
  exact ⟨fun hle => dwks_try_ok hle, fun hlt => dwks_try_err hlt,
    fun got need => ⟨by simp, by simp⟩⟩

/-- Witness for C4: with the default configuration (threshold 2), a full
quorum decrypts while a single response fails with the insufficient-keys
error carrying counts 1 and 2. -/
theorem quorum_threshold_gate_witness :
    decrypt_with_key_servers_try load_config [some 1, some 2] seal32 = .ok seal32 ∧
    decrypt_with_key_servers_try load_config [some 5, none] seal32 =
      .error (.insufficientKeys 1 2) :=
  ⟨((quorum_threshold_gate load_config [some 1, some 2] seal32).1 (by decide)).trans rfl,
    ((quorum_threshold_gate load_config [some 5, none] seal32).2.1 (by decide)).trans rfl⟩

end Satya

/-! ### Claims about ml_evaluator.py -/

namespace Satya

theorem max_zero_pyInt (q : Rat) : max 0 (pyInt q) = max 0 ⌊q⌋ := by
  unfold pyInt
  by_cases h : 0 ≤ q
  · rw [if_pos h]
  · rw [if_neg h]
    push_neg at h
    have h1 : ⌊q⌋ ≤ ⌊(0 : Rat)⌋ := Int.floor_le_floor (le_of_lt h)
    rw [Int.floor_zero] at h1
    have h2 : (0 : Int) ≤ ⌊-q⌋ := Int.le_floor.mpr (by push_cast; linarith)
    omega

theorem max_min_pyInt (q : Rat) :
    max 0 (min 100 (pyInt q)) = max 0 (min 100 ⌊q⌋) := by
  unfold pyInt
  by_cases h : 0 ≤ q
  · rw [if_pos h]
  · rw [if_neg h]
    push_neg at h
    have h1 : ⌊q⌋ ≤ ⌊(0 : Rat)⌋ := Int.floor_le_floor (le_of_lt h)
    rw [Int.floor_zero] at h1
    have h2 : (0 : Int) ≤ ⌊-q⌋ := Int.le_floor.mpr (by push_cast; linarith)
    omega

theorem quality_scenario_eval :
    calculate_overall_quality_score c1metrics defaultBias 100 = 89 := by
  norm_num [calculate_overall_quality_score, c1metrics, defaultBias, pyInt]

/-- Counterexample to C1: the code clamps the Python int() truncation, not
the rounding, of the weighted combination.  At the specified scenario
(weighted F1 0.85, fairness 85, integrity 100) the combination is 89.5, the
code yields 89, while the claimed round formula yields 90. -/
theorem quality_score_round_counterexample :
    calculate_overall_quality_score c1metrics defaultBias 100 = 89 ∧
    max 0 (min 100 (round ((17 / 20 : Rat) * 100 * (4 / 10) + 85 * (3 / 10)
      + 100 * (3 / 10)))) = 90 ∧
    (89 : Int) ≠ 90 :=
  ⟨quality_scenario_eval, by norm_num [round_eq], by decide⟩

/-- C1 as amended: for every evaluation the overall quality score equals
clamp(0, 100, trunc(accuracy_equivalent*100*0.4 + fairness_score*0.3 +
integrity_score*0.3)), where trunc is Python int() truncation (equal to the
floor under the clamp) and the accuracy equivalent is the f1_score entry of
the metrics dictionary (weighted F1 for classification, zero-clipped pseudo
R squared for regression), falling back to accuracy then 0; in particular,
for accuracy_equivalent 0.85, fairness 85 and integrity 100 the result
is 89, not 90. -/
theorem quality_score_truncation :
    (∀ (m : Metrics) (b : BiasResult) (i : Int),
      calculate_overall_quality_score m b i =
        max 0 (min 100
          ⌊m.f1_score.getD (m.accuracy.getD 0) * 100 * (4 / 10)
            + (b.fairness_score : Rat) * (3 / 10) + (i : Rat) * (3 / 10)⌋)) ∧
    calculate_overall_quality_score c1metrics defaultBias 100 = 89 := by
  constructor
  · intro m b i
    simp only [calculate_overall_quality_score]
    rw [max_min_pyInt]
    congr 3
    ring
  · exact quality_scenario_eval

/-- Counterexample to C7: the fairness score is the Python int() truncation,
not the rounding, of (1 - parity_gap) * 100.  On a dataset slice with
demographic parity gap 1/16 the code yields 93 while the claimed round
formula yields 94. -/
theorem fairness_round_counterexample :
    demographic_parity_diff c7bias = 1 / 16 ∧
    (assess_bias c7bias).fairness_score = 93 ∧
    max 0 (round (((1 : Rat) - 1 / 16) * 100)) = 94 := by
  have hd : demographic_parity_diff c7bias = 1 / 16 := by
    norm_num [demographic_parity_diff, c7bias, meanWhere, List.replicate, List.zip]
  refine ⟨hd, ?_, by norm_num [round_eq]⟩
  have hf : findProtectedCol c7bias.columns = some "gender" := by rfl
  unfold assess_bias
  rw [hf]
  simp only []
  rw [hd]
  norm_num [pyInt]

/-- C7 as amended: when a protected-attribute column is present,
bias_detected holds exactly when the demographic parity gap exceeds the
fixed threshold 1/10, and the fairness score is
max(0, trunc((1 - parity_gap) * 100)) with Python int() truncation (equal
to the floor under the clamp), not rounding. -/
theorem bias_fairness_truncation :
    ∀ (inp : BiasInput) (col : String),
      findProtectedCol inp.columns = some col →
      ((assess_bias inp).bias_detected = true ↔
        1 / 10 < demographic_parity_diff inp) ∧
      (assess_bias inp).fairness_score =
        max 0 ⌊(1 - demographic_parity_diff inp) * 100⌋ := by
  intro inp col h
  unfold assess_bias
  rw [h]
  constructor
  · simp
  · simp only []
    exact max_zero_pyInt _

/-- Witness for the amended C7 at the concrete dataset slice with parity
gap 1/16 and protected column gender. -/
theorem bias_fairness_truncation_witness :
    ((assess_bias c7bias).bias_detected = true ↔
      1 / 10 < demographic_parity_diff c7bias) ∧
    (assess_bias c7bias).fairness_score =
      max 0 ⌊(1 - demographic_parity_diff c7bias) * 100⌋ :=
  bias_fairness_truncation c7bias "gender" rfl

/-- C8: for every dataset containing no column from the fixed
protected-attribute list, the bias assessment deterministically returns the
neutral default: fairness score 85 and bias_detected false. -/
theorem bias_default_no_protected :
    ∀ inp : BiasInput, (∀ a ∈ protected_attrs, a ∉ inp.columns) →
      assess_bias inp = defaultBias ∧
      (assess_bias inp).fairness_score = 85 ∧
      (assess_bias inp).bias_detected = false := by
  intro inp h
  have hf : findProtectedCol inp.columns = none := by
    unfold findProtectedCol
    rw [List.find?_eq_none]
    intro a ha
    simpa using h a ha
  unfold assess_bias
  rw [hf]
  exact ⟨rfl, rfl, rfl⟩

/-- Witness for C8: a dataset with columns feature_0, income and label. -/
theorem bias_default_no_protected_witness :
    assess_bias c8input = defaultBias :=
  (bias_default_no_protected c8input (by decide)).1

/-- Counterexample to C9: the task is not treated as classification if and
only if the label cardinality is at most 10; a model exposing predict_proba
is evaluated with the classification branch even on a label column with 11
distinct values (no regression metrics, precision computed). -/
theorem classification_gate_counterexample :
    10 < c9y.dedup.length ∧
    (evaluate_model_performance true c9y c9y c9y).precision_score.isSome = true ∧
    (evaluate_model_performance true c9y c9y c9y).mse = none :=
  ⟨by decide, rfl, rfl⟩

/-- C9 as amended: the evaluation runs the classification branch (weighted
precision, recall and F1; AUC exactly when there are two classes) if and
only if the model exposes predict_proba or the label column has at most 10
distinct values; only otherwise does it run the regression branch (RMSE and
MAE computed, and the zero-clipped pseudo R squared stored as the accuracy
equivalent f1_score). -/
theorem classification_gate :
    ∀ (hasProba : Bool) (y ypred probs : List Rat),
      ((evaluate_model_performance hasProba y ypred probs).precision_score.isSome = true ↔
        (hasProba = true ∨ y.dedup.length ≤ 10)) ∧
      ((evaluate_model_performance hasProba y ypred probs).mse.isSome = true ↔
        ¬(hasProba = true ∨ y.dedup.length ≤ 10)) ∧
      ((evaluate_model_performance hasProba y ypred probs).auc.isSome = true ↔
        ((hasProba = true ∨ y.dedup.length ≤ 10) ∧ y.dedup.length = 2)) ∧
      ((hasProba = true ∨ y.dedup.length ≤ 10) →
        (evaluate_model_performance hasProba y ypred probs).f1_score =
          some (weightedAvg y ypred f1Of) ∧
        (evaluate_model_performance hasProba y ypred probs).mae = none) ∧
      (¬(hasProba = true ∨ y.dedup.length ≤ 10) →
        (evaluate_model_performance hasProba y ypred probs).f1_score =
          some (max 0 (pseudoR2 y ypred)) ∧
        (evaluate_model_performance hasProba y ypred probs).r2 = some (pseudoR2 y ypred) ∧
        (evaluate_model_performance hasProba y ypred probs).mae.isSome = true) := by
  intro hasProba y ypred probs
  by_cases hc : (hasProba || decide (y.dedup.length ≤ 10)) = true
  · have hc2 : hasProba = true ∨ y.dedup.length ≤ 10 := by simpa using hc
    unfold evaluate_model_performance
    rw [if_pos hc]
    by_cases h2 : y.dedup.length = 2
    · simp [h2, hc2]
    · simp [h2, hc2]
  · have hc2 : ¬(hasProba = true ∨ y.dedup.length ≤ 10) := by simpa using hc
    unfold evaluate_model_performance
    rw [if_neg hc]
    simp [hc2]

/-- Witness for the amended C9: on the 11-label column, a model without
predict_proba is evaluated with the regression branch (zero-clipped pseudo
R squared as f1_score, MAE present) and one with predict_proba with the
classification branch (no MAE). -/
theorem classification_gate_witness :
    (evaluate_model_performance false c9y c9y c9y).f1_score =
      some (max 0 (pseudoR2 c9y c9y)) ∧
    (evaluate_model_performance false c9y c9y c9y).mae.isSome = true ∧
    (evaluate_model_performance true c9y c9y c9y).mae = none :=
  ⟨((classification_gate false c9y c9y c9y).2.2.2.2 (by decide)).1,
    ((classification_gate false c9y c9y c9y).2.2.2.2 (by decide)).2.2,
    ((classification_gate true c9y c9y c9y).2.2.2.1 (by decide)).2⟩

end Satya

/-! ### Claims about real_attestation_generator.py -/

namespace Satya

theorem verify_false_of_sdo_error {k : Nat} {a : AttestationData} {e : String}
    (h : signing_data_of a = .error e) : verify_attestation k a = false := by
  unfold verify_attestation verify_attestation_try
  rcases hsig : a.signature with _ | sh
  · simp [hsig, h]
  · cases sh with
    | nonHex raw => simp [hsig]
    | hexOf b => simp [hsig, h]

theorem sdo_ok_fields {a : AttestationData} {sd : SigningData}
    (h : signing_data_of a = .ok sd) :
    a.pcr0 ≠ none ∧ a.pcr1 ≠ none ∧ a.pcr2 ≠ none ∧ a.pcr8 ≠ none ∧
      a.timestamp ≠ none := by
  rcases hp0 : a.pcr0 with _ | v0 <;>
    rcases hp1 : a.pcr1 with _ | v1 <;>
    rcases hp2 : a.pcr2 with _ | v2 <;>
    rcases hp8 : a.pcr8 with _ | v8 <;>
    rcases hts : a.timestamp with _ | vt <;>
    simp_all [signing_data_of, keyLookup]

/-- C3: for every payload map and signing identity, verifying the proof
produced by signing the payload under that identity returns true; and for
every modification of a single payload field to a different value before
verification, verification returns false. -/
theorem attestation_sign_verify_roundtrip :
    ∀ (k : Nat) (P : SigningData) (f : PayloadField) (v : String),
      verify_attestation k (signed_attestation k P) = true ∧
      (getPayloadField f (attestationOf P) ≠ some v →
        verify_attestation k (setPayloadField f v (signed_attestation k P)) = false) := by
  intro k P f v
  obtain ⟨p0, p1, p2, p8, ts, eid⟩ := P
  constructor
  · simp [verify_attestation, verify_attestation_try, signed_attestation, sign_attestation,
      attestationOf, signing_data_of, keyLookup, Except.toOption, ed25519_verify,
      ed25519_sign]
  · intro hne
    cases f <;>
      simp only [getPayloadField, attestationOf, ne_eq, Option.some.injEq] at hne <;>
      simp [verify_attestation, verify_attestation_try, signed_attestation, sign_attestation,
        setPayloadField, attestationOf, signing_data_of, keyLookup, Except.toOption,
        ed25519_verify, ed25519_sign, hne]

/-- Witness for C3 at a concrete payload and key: the round trip verifies
and flipping pcr0 to a different value makes verification fail. -/
theorem attestation_sign_verify_roundtrip_witness :
    verify_attestation 7 (signed_attestation 7 c3payload) = true ∧
    verify_attestation 7 (setPayloadField .pcr0 "b0" (signed_attestation 7 c3payload))
      = false :=
  ⟨(attestation_sign_verify_roundtrip 7 c3payload .pcr0 "b0").1,
    (attestation_sign_verify_roundtrip 7 c3payload .pcr0 "b0").2 (by decide)⟩

/-- C5: attestation verification is total and Boolean; it returns false
rather than raising on a missing payload field (the bracket-accessed pcr0,
pcr1, pcr2, pcr8 and timestamp keys), on a malformed non-hex signature
encoding, on decoded bytes that are no valid signature encoding (including
the empty default when the signature key is absent, and truncated
encodings), and on a signature that does not match the payload under the
verifying key. -/
theorem verify_attestation_total :
    ∀ (k : Nat) (a : AttestationData),
      (a.pcr0 = none ∨ a.pcr1 = none ∨ a.pcr2 = none ∨ a.pcr8 = none ∨
          a.timestamp = none →
        verify_attestation k a = false) ∧
      (∀ raw : String, a.signature = some (.nonHex raw) →
        verify_attestation k a = false) ∧
      (∀ raw : Bytes, a.signature = some (.hexOf (.junk raw)) →
        verify_attestation k a = false) ∧
      (a.signature = none → verify_attestation k a = false) ∧
      (∀ (s : Ed25519Signature) (sd : SigningData),
        a.signature = some (.hexOf (.wire s)) → signing_data_of a = .ok sd →
        s ≠ ed25519_sign k sd → verify_attestation k a = false) := by
  intro k a
  refine ⟨fun h => ?_, fun raw hsig => ?_, fun raw hsig => ?_, fun hsig => ?_,
    fun s sd hsig hsd hne => ?_⟩
  · rcases hv : signing_data_of a with e | sd
    · exact verify_false_of_sdo_error hv
    · obtain ⟨h0, h1, h2, h8, ht⟩ := sdo_ok_fields hv
      rcases h with h | h | h | h | h <;> simp_all
  · simp [verify_attestation, verify_attestation_try, hsig]
  · rcases hv : signing_data_of a with e | sd
    · exact verify_false_of_sdo_error hv
    · simp [verify_attestation, verify_attestation_try, hsig, hv]
  · rcases hv : signing_data_of a with e | sd
    · exact verify_false_of_sdo_error hv
    · simp [verify_attestation, verify_attestation_try, hsig, hv]
  · simp [verify_attestation, verify_attestation_try, hsig, hsd, ed25519_verify, hne]

/-- Witness for C5 at concrete attestations: a missing pcr0 field, a
non-hex signature string, junk signature bytes, and a valid signature
verified under the wrong key all yield false. -/
theorem verify_attestation_total_witness :
    verify_attestation 7 { attestationOf c3payload with pcr0 := none } = false ∧
    verify_attestation 7 { attestationOf c3payload with
      signature := some (.nonHex "zz") } = false ∧
    verify_attestation 7 { attestationOf c3payload with
      signature := some (.hexOf (.junk [0])) } = false ∧
    verify_attestation 3 (signed_attestation 7 c3payload) = false :=
  ⟨(verify_attestation_total 7 _).1 (Or.inl rfl),
    (verify_attestation_total 7 _).2.1 "zz" rfl,
    (verify_attestation_total 7 _).2.2.1 [0] rfl,
    (verify_attestation_total 3 _).2.2.2.2 (ed25519_sign 7 c3payload) c3payload
      rfl rfl (by decide)⟩

end Satya
